import Mathlib

/-!
Verification development for the Universum VCS driver abstraction
(`universum/modules/vcs/vcs.py`) and the uncrustify analyzer helper
(`universum/analyzers/uncrustify.py`).

The Python code is shallowly embedded: pure computations become Lean
functions, raised exceptions become `Except` error values, and the
observable effects of one method call are returned as explicit data.
-/

namespace Universum

/-- The concrete driver classes appearing in the three factory dictionaries of
`create_vcs` (`vcs.py`, lines 31-54).  Called `DriverVariant` here; each
constructor names one Python class. -/
inductive DriverVariant where
  | BaseSubmitVcs
  | PerforceSubmitVcs
  | GitSubmitVcs
  | GerritSubmitVcs
  | BasePollVcs
  | PerforcePollVcs
  | GitPollVcs
  | LocalMainVcs
  | PerforceMainVcs
  | GitMainVcs
  | GerritMainVcs
  | GithubMainVcs
  deriving DecidableEq, Repr

/-- The Python exceptions that the embedded code can raise.
`typeErrorDuringHandling e` models the `TypeError` that Python raises while
handling an exception `e` when the `except` clause expression
`AttributeError | KeyError` is evaluated: on Python 3.10+ that expression
builds a `types.UnionType`, which the `except` machinery rejects with
`TypeError: catching classes that do not inherit from BaseException is not
allowed`; before 3.10 the `|` operator itself fails with a `TypeError`.
In both cases the original exception `e` survives only as the context. -/
inductive PyError where
  | incorrectParameterError (msg : String)
  | nameError (nm : String)
  | typeErrorDuringHandling (context : PyError)
  | notImplementedError
  | attributeError (attr : String)
  | keyError (key : String)
  deriving DecidableEq, Repr

/-- Returns true exactly when the error is the configuration-error type
`IncorrectParameterError` from `lib.module_arguments`. -/
def PyError.isIncorrectParameter : PyError → Bool
  | PyError.incorrectParameterError _ => true
  | _ => false

/-- `driver_factory_class` for `class_type == "submit"` (`vcs.py`, lines 32-38). -/
def submit_table : List (String × DriverVariant) :=
  [("none", DriverVariant.BaseSubmitVcs),
   ("p4", DriverVariant.PerforceSubmitVcs),
   ("git", DriverVariant.GitSubmitVcs),
   ("gerrit", DriverVariant.GerritSubmitVcs),
   ("github", DriverVariant.GitSubmitVcs)]

/-- `driver_factory_class` for `class_type == "poll"` (`vcs.py`, lines 40-46). -/
def poll_table : List (String × DriverVariant) :=
  [("none", DriverVariant.BasePollVcs),
   ("p4", DriverVariant.PerforcePollVcs),
   ("git", DriverVariant.GitPollVcs),
   ("gerrit", DriverVariant.GitPollVcs),
   ("github", DriverVariant.GitPollVcs)]

/-- `driver_factory_class` for any other `class_type`, the main role
(`vcs.py`, lines 48-54). -/
def main_table : List (String × DriverVariant) :=
  [("none", DriverVariant.LocalMainVcs),
   ("p4", DriverVariant.PerforceMainVcs),
   ("git", DriverVariant.GitMainVcs),
   ("gerrit", DriverVariant.GerritMainVcs),
   ("github", DriverVariant.GithubMainVcs)]

/-- The table-selection branch of `create_vcs` (`vcs.py`, lines 31-54): the
local variable is named `driver_factory_class` in the source.  The Python
parameter `class_type: str = None` is embedded as `Option String`
(`none` for Python `None`, the default used by `MainVcs`). -/
def driver_factory_table (class_type : Option String) : List (String × DriverVariant) :=
  if class_type = some "submit" then submit_table
  else if class_type = some "poll" then poll_table
  else main_table

/-- `vcs_types` (`vcs.py`, line 56). -/
def vcs_types : List String := ["none", "p4", "git", "gerrit", "github"]

/-- The settings attributes read by `Vcs.__init__`.  `type` is `none` when the
attribute is absent (Python `getattr(self.settings, "type", None)` gives
`None`) and `some t` when it is set to the string `t`. -/
structure Settings where
  type : Option String
  deriving DecidableEq, Repr

/-- Python truthiness of `getattr(self.settings, "type", None)`: the attribute
counts as set exactly when it is present and not the empty string
(`vcs.py`, line 76). -/
def typeIsSet (s : Settings) : Bool :=
  match s.type with
  | none => false
  | some t => t ≠ ""

/-- The part of the `IncorrectParameterError` message text that stands before
the inserted type enumeration: the result of `inspect.cleandoc` on the
source literal (`vcs.py`, lines 77-96), cut at the `format` placeholder.
The stray inner spaces reproduce the whitespace that `cleandoc` keeps from
the source literal. -/
def vcsTypeUnsetMsgBefore : String :=
  "The repository (VCS) type is not set.\n \nThe repository type defines the version control system \nthat is used for performing the requested action.\nFor example, Universum needs to get project source codes\nfor performing Continuous Integration (CI) builds.  \n\nThe following types are supported: "

/-- The part of the message text after the `format` placeholder. -/
def vcsTypeUnsetMsgAfter : String :=
  ".\n\nEach of these types requires supplying its own\nconfiguration parameters. At the minimum, the following\nparameters are required:\n  * \"git\", \"github\" and \"gerrit\" - GIT_REPO (-gr) and GIT_REFSPEC (-grs)\n  * \"perforce\"                   - P4PORT (-p4p), P4USER (-p4u) and P4PASSWD (-p4P)\n  * \"none\"                       - SOURCE_DIR (-fsd)\n  \nDepending on the requested action, additional type-specific\nparameters are required. For example, P4CLIENT (-p4c) is\nrequired for CI builds with perforce."

/-- The full message of the error raised when the VCS type is unset:
`cleandoc(...).format(", ".join(vcs_types))` (`vcs.py`, lines 77-96).
The single `format` placeholder is embedded as concatenation around the
joined type list. -/
def vcsTypeUnsetMessage : String :=
  vcsTypeUnsetMsgBefore ++ String.intercalate ", " vcs_types ++ vcsTypeUnsetMsgAfter

/-- Observable side effects of `Vcs.__init__`, recorded as a trace.
A `driverConstructed` event would mark the instantiation of a driver (which
may touch the filesystem); `fsAccess` marks any other filesystem access.
The embedding of `__init__` emits an event wherever the source performs the
corresponding action, so an empty trace means no filesystem access. -/
inductive Event where
  | fsAccess (description : String)
  | driverConstructed (variant : DriverVariant)
  deriving DecidableEq, Repr

/-- Embeds the exception handling of `vcs.py` lines 99-102:
`try: ... except AttributeError | KeyError: raise NotImplementedError()`.
When the `try` body succeeds the handler is skipped.  When it raises,
Python evaluates the clause expression `AttributeError | KeyError`, which
on every Python version fails to produce a catchable exception class (see
`PyError.typeErrorDuringHandling`), so the original exception is replaced
by a `TypeError` raised during its handling and the
`raise NotImplementedError()` body is never reached. -/
def exceptAttrOrKey (r : Except PyError DriverVariant) : Except PyError DriverVariant :=
  match r with
  | Except.ok d => Except.ok d
  | Except.error e => Except.error (PyError.typeErrorDuringHandling e)

/-- Embeds `Vcs.__init__` (`vcs.py`, lines 73-102) for the role selected by
`class_type`.  After the unset-type check, line 100 reads
`self.driver = driver_factory[self.settings.type]()`.  The bare name
`driver_factory` is a class attribute, and Python method bodies do not see
class attributes as bare names (the enclosing `create_vcs` scope only binds
`driver_factory_class` and `vcs_types`), so evaluating it raises
`NameError` before the subscript or any driver construction; the factory
table `driver_factory_table class_type` is therefore never consulted.
`ProjectDirectory.__init__` (not under src/) is modelled from the spec as
pure settings binding with no side effect: per spec section 7,
configuration errors are detected at construction "before any side
effect".  The `needs_structure` decoration (not under src/) is modelled
from the spec as reporting instrumentation that does not alter control
flow.  The result pairs the raised error (or constructed driver) with the
trace of events performed. -/
def vcsInit (class_type : Option String) (s : Settings) :
    Except PyError DriverVariant × List Event :=
  if typeIsSet s = false then
    (Except.error (PyError.incorrectParameterError vcsTypeUnsetMessage), [])
  else
    (exceptAttrOrKey (Except.error (PyError.nameError "driver_factory")), [])

/-- The review handle returned by `self.driver.code_review()`; queried through
`is_latest_version()` (`vcs.py`, line 136).  The backend state it answers
from is abstracted into the stored boolean. -/
structure CodeReviewHandle where
  isLatestVersion : Bool
  deriving DecidableEq, Repr

/-- Embeds the tail of `MainVcs.__init__` (`vcs.py`, lines 131-132): the
`code_review` attribute is assigned (from the driver) exactly when
`report_to_review` is set, and is otherwise absent (`none`). -/
def mainVcsCodeReview (reportToReview : Bool) (driverReview : CodeReviewHandle) :
    Option CodeReviewHandle :=
  if reportToReview then some driverReview else none

/-- Embeds `MainVcs.is_latest_review_version` (`vcs.py`, lines 134-137).
Reading the `code_review` attribute when it was never assigned raises
`AttributeError`, hence the `Option` argument and the `Except` result. -/
def is_latest_review_version (reportToReview : Bool)
    (codeReview : Option CodeReviewHandle) : Except PyError Bool :=
  if reportToReview then
    match codeReview with
    | some cr => Except.ok cr.isLatestVersion
    | none => Except.error (PyError.attributeError "code_review")
  else
    Except.ok true

/-- The state of one artifact text file: its name, the text written so far,
and whether it has been closed. -/
structure ArtifactFile where
  name : String
  contents : String
  closed : Bool
  deriving DecidableEq, Repr

/-- `status_file.write(text)` appends to the file contents. -/
def fileWrite (f : ArtifactFile) (text : String) : ArtifactFile :=
  { f with contents := f.contents ++ text }

/-- `status_file.close()`. -/
def fileClose (f : ArtifactFile) : ArtifactFile :=
  { f with closed := true }

/-- Modelled from the spec: `ArtifactCollector.create_text_file(name)` (the
collector is not under src/) returns a "scoped writable text handle with
guaranteed flush/close on all exit paths" (spec section 6); the handle
starts open and empty. -/
def createTextFile (nm : String) : ArtifactFile :=
  { name := nm, contents := "", closed := false }

/-- Modelled from the spec: the guaranteed close that the artifact collector
(not under src/) applies to a scoped handle when an exception unwinds the
scope, per the spec section 6 contract quoted at `createTextFile`. -/
def scopedClose (f : ArtifactFile) : ArtifactFile :=
  fileClose f

/-- Decidable equality for `Except` results, so that concrete outcomes can be
checked by `decide`. -/
instance {ε α : Type} [DecidableEq ε] [DecidableEq α] : DecidableEq (Except ε α) := fun a b =>
  match a, b with
  | Except.ok x, Except.ok y =>
      if h : x = y then isTrue (by rw [h])
      else isFalse (fun hc => h (Except.ok.inj hc))
  | Except.error x, Except.error y =>
      if h : x = y then isTrue (by rw [h])
      else isFalse (fun hc => h (Except.error.inj hc))
  | Except.ok _, Except.error _ => isFalse (fun hc => Except.noConfusion hc)
  | Except.error _, Except.ok _ => isFalse (fun hc => Except.noConfusion hc)

/-- The behavior of the concrete driver during one
`MainVcs.prepare_repository` call, abstracting the driver classes (not
under src/): whether `driver.prepare_repository()` returns or raises, the
text returned by `driver.get_repo_status()`, the text
`utils.trim_and_convert_to_unicode(sh.ls("-lR", project_root))` (the
recursive long-format listing of the source root, trimmed and decoded by a
helper that is not under src/), and the result of
`json.dumps(driver.calculate_file_diff(), indent=4)` (returning the
serialized diff, or raising). -/
structure DriverBehavior where
  prepareResult : Except PyError Unit
  repoStatus : String
  fileListing : String
  diffResult : Except PyError String
  deriving DecidableEq, Repr

/-- The observable outcome of one `MainVcs.prepare_repository` call: whether
it returned or raised, the final state of the `REPOSITORY_STATE.txt`
handle, and the payload forwarded to `api_support.add_file_diff` (if that
point was reached). -/
structure PrepareOutcome where
  result : Except PyError Unit
  statusFile : ArtifactFile
  apiFileDiff : Option String
  deriving DecidableEq, Repr

/-- Embeds `MainVcs.prepare_repository` (`vcs.py`, lines 139-152): create the
`REPOSITORY_STATE.txt` handle; call the driver (on failure the scoped
handle is closed by the collector guarantee, `scopedClose`, and the error
propagates with nothing further executed); then write the status text,
the literal `"\nFile list:\n\n"`, and the listing followed by `"\n"`;
close the file; compute and forward the serialized diff.  The
`make_block` decoration (not under src/) is modelled from the spec as
reporting instrumentation that does not alter control flow or results. -/
def prepareRepository (d : DriverBehavior) : PrepareOutcome :=
  let f0 := createTextFile "REPOSITORY_STATE.txt"
  match d.prepareResult with
  | Except.error e =>
      { result := Except.error e, statusFile := scopedClose f0, apiFileDiff := none }
  | Except.ok _ =>
      let f1 := fileWrite f0 d.repoStatus
      let f2 := fileWrite f1 "\nFile list:\n\n"
      let f3 := fileWrite f2 (d.fileListing ++ "\n")
      let f4 := fileClose f3
      match d.diffResult with
      | Except.error e =>
          { result := Except.error e, statusFile := f4, apiFileDiff := none }
      | Except.ok diff =>
          { result := Except.ok (), statusFile := f4, apiFileDiff := some diff }

/-- The artifact layout asserted by the spec for `REPOSITORY_STATE.txt`,
written from the words of the spec (section 6) for comparison with the
embedding: the driver status text, a literal blank line, the line
`File list:`, a blank line, then the listing. -/
def claimedRepositoryState (status listing : String) : String :=
  status ++ "\n\nFile list:\n\n" ++ listing ++ "\n"

/-- The kinds of `OSError` that `shutil.rmtree` can raise; Python reports
every filesystem failure of `rmtree` (missing directory, permission
denied, path not a directory, low-level failure) through `OSError`
subclasses. -/
inductive OSErrorKind where
  | fileNotFound
  | permissionDenied
  | notADirectory
  | otherFailure
  deriving DecidableEq, Repr

/-- Embeds `MainVcs.clean_sources_silently` (`vcs.py`, lines 154-158):
`try: shutil.rmtree(project_root) except OSError: pass`.  The argument is
the outcome of the `rmtree` call on the current working-directory state
(absent directory gives `fileNotFound`, and so on). -/
def clean_sources_silently (rmtreeOutcome : Except OSErrorKind Unit) :
    Except PyError Unit :=
  match rmtreeOutcome with
  | Except.ok _ => Except.ok ()
  | Except.error _ => Except.ok ()

/-- Python `str.replace(old, new)` for a single-character pattern `o`:
every occurrence of the character `o` is replaced by the string `n`
(embedded over character lists). -/
def pyReplaceChar (o : Char) (n : List Char) (s : List Char) : List Char :=
  s.flatMap (fun c => if c = o then n else [c])

/-- The zipped pairs of `replace_invisible_symbols`
(`uncrustify.py`, lines 18-19): space, tab and newline with their visible
replacements (middle dot; four rightwards arrows; downwards arrow plus
newline).  Every pattern is a single character. -/
def invisible_symbol_pairs : List (Char × List Char) :=
  [(' ', ['·']),
   ('\t', ['→', '→', '→', '→']),
   ('\n', ['↓', '\n'])]

/-- Embeds `replace_invisible_symbols` (`uncrustify.py`, lines 17-20): the
`return` statement sits inside the `for` loop body, so the function
returns `line.replace(old, new)` for the first pair of the (nonempty
constant) zipped list on the first iteration; the tab and newline pairs
are never applied.  The `[]` arm is unreachable for the source constant
(Python would fall off the loop and return `None`). -/
def replace_invisible_symbols (line : List Char) : List Char :=
  match invisible_symbol_pairs with
  | [] => line
  | p :: _ => pyReplaceChar p.1 p.2 line

/-- True when the embedded `Vcs.__init__` raises the configuration error type
`IncorrectParameterError`. -/
def initRaisesConfigurationError (class_type : Option String) (s : Settings) : Bool :=
  match (vcsInit class_type s).1 with
  | Except.error e => e.isIncorrectParameter
  | Except.ok _ => false

/-- C1 counterexample: at the concrete set value "svn" (outside the supported
types, main role), Role Wrapper construction does fail, but the raised
error is the `TypeError` produced while handling the `NameError` from the
unbound `driver_factory` name, not a configuration error, refuting the
claim as stated. -/
theorem C1_counterexample :
    initRaisesConfigurationError none (Settings.mk (some "svn")) = false
      ∧ (vcsInit none (Settings.mk (some "svn"))).1
          = Except.error (PyError.typeErrorDuringHandling
              (PyError.nameError "driver_factory")) := by
  decide

/-- C1 (amended): for every VcsType value outside the supported five that is
set (non-empty) and for every role, Role Wrapper construction fails before
any filesystem access occurs (the event trace is empty), but the raised
error is a `TypeError` produced while handling the `NameError` from the
unbound `driver_factory` name, not a configuration error. -/
theorem C1_unknown_type_fails (ct : Option String) (s : Settings) (t : String)
    (ht : s.type = some t) (hne : t ≠ "") (hnot : t ∉ vcs_types) :
    (vcsInit ct s).1
        = Except.error (PyError.typeErrorDuringHandling (PyError.nameError "driver_factory"))
      ∧ (vcsInit ct s).2 = [] := by
  have hset : typeIsSet s = true := by
    simp [typeIsSet, ht, hne]
  simp [vcsInit, hset, exceptAttrOrKey]

/-- C1 witness: the amended theorem applied at role=main and VcsType "svn". -/
theorem C1_unknown_type_fails_witness :
    ((Settings.mk (some "svn")).type = some "svn" ∧ "svn" ≠ "" ∧ "svn" ∉ vcs_types)
      ∧ ((vcsInit none (Settings.mk (some "svn"))).1
            = Except.error (PyError.typeErrorDuringHandling
                (PyError.nameError "driver_factory"))
          ∧ (vcsInit none (Settings.mk (some "svn"))).2 = []) :=
  ⟨⟨rfl, by decide, by decide⟩,
    C1_unknown_type_fails none (Settings.mk (some "svn")) "svn" rfl (by decide) (by decide)⟩

/-- C2: if the driver raises during `MainVcs.prepare_repository`, the
`REPOSITORY_STATE.txt` handle is still closed (by the scoped guarantee of
the collector) with the partial content written before the failure — nothing,
since the driver is called before any write — left intact, and the driver
error reaches the caller unchanged. -/
theorem C2_driver_error_closes_artifact (d : DriverBehavior) (e : PyError)
    (h : d.prepareResult = Except.error e) :
    (prepareRepository d).result = Except.error e
      ∧ (prepareRepository d).statusFile.closed = true
      ∧ (prepareRepository d).statusFile.name = "REPOSITORY_STATE.txt"
      ∧ (prepareRepository d).statusFile.contents = "" := by
  simp [prepareRepository, h, scopedClose, fileClose, createTextFile]

/-- C2 witness: a driver whose preparation raises `NotImplementedError`. -/
theorem C2_driver_error_closes_artifact_witness :
    ((DriverBehavior.mk (Except.error PyError.notImplementedError) "s" "l"
        (Except.ok "[]")).prepareResult = Except.error PyError.notImplementedError)
      ∧ ((prepareRepository (DriverBehavior.mk (Except.error PyError.notImplementedError)
            "s" "l" (Except.ok "[]"))).result = Except.error PyError.notImplementedError
          ∧ (prepareRepository (DriverBehavior.mk (Except.error PyError.notImplementedError)
              "s" "l" (Except.ok "[]"))).statusFile.closed = true
          ∧ (prepareRepository (DriverBehavior.mk (Except.error PyError.notImplementedError)
              "s" "l" (Except.ok "[]"))).statusFile.name = "REPOSITORY_STATE.txt"
          ∧ (prepareRepository (DriverBehavior.mk (Except.error PyError.notImplementedError)
              "s" "l" (Except.ok "[]"))).statusFile.contents = "") :=
  ⟨rfl, C2_driver_error_closes_artifact
    (DriverBehavior.mk (Except.error PyError.notImplementedError) "s" "l" (Except.ok "[]"))
    PyError.notImplementedError rfl⟩

/-- C3 (code bug): the claim says construction succeeds for every supported
VcsType and assigns exactly one driver resolved through the factory table
of the role.  The code instead fails for every type: evaluated at the failing
input role=main, VcsType="git", `__init__` raises the `TypeError` produced
while handling the `NameError` from the unbound name `driver_factory`
(line 100 lacks `self.`), constructing no driver — even though the role
table does map "git" to `GitMainVcs` as the claim expects. -/
theorem C3_no_driver_constructed :
    vcsInit none (Settings.mk (some "git"))
        = (Except.error (PyError.typeErrorDuringHandling (PyError.nameError "driver_factory")),
            [])
      ∧ (driver_factory_table none).lookup "git" = some DriverVariant.GitMainVcs := by
  decide

/-- C4: when the VcsType is unset (absent or empty), construction fails with
an `IncorrectParameterError` whose message enumerates exactly the five
supported type names none, p4, git, gerrit, github (inserted by the single
`format` placeholder from `", ".join(vcs_types)`). -/
theorem C4_unset_type_message (ct : Option String) (s : Settings)
    (h : s.type = none ∨ s.type = some "") :
    (vcsInit ct s).1 = Except.error (PyError.incorrectParameterError vcsTypeUnsetMessage)
      ∧ vcsTypeUnsetMessage
          = vcsTypeUnsetMsgBefore ++ "none, p4, git, gerrit, github" ++ vcsTypeUnsetMsgAfter
      ∧ String.intercalate ", " vcs_types = "none, p4, git, gerrit, github"
      ∧ vcs_types = ["none", "p4", "git", "gerrit", "github"] := by
  have hset : typeIsSet s = false := by
    rcases h with h | h <;> simp [typeIsSet, h]
  have hj : String.intercalate ", " vcs_types = "none, p4, git, gerrit, github" := by decide
  refine ⟨by simp [vcsInit, hset], ?_, hj, rfl⟩
  rw [vcsTypeUnsetMessage, hj]

/-- C4 witness: the theorem applied at role=main with the type attribute
absent. -/
theorem C4_unset_type_message_witness :
    ((Settings.mk none).type = none ∨ (Settings.mk none).type = some "")
      ∧ ((vcsInit none (Settings.mk none)).1
            = Except.error (PyError.incorrectParameterError vcsTypeUnsetMessage)
          ∧ vcsTypeUnsetMessage
              = vcsTypeUnsetMsgBefore ++ "none, p4, git, gerrit, github" ++ vcsTypeUnsetMsgAfter
          ∧ String.intercalate ", " vcs_types = "none, p4, git, gerrit, github"
          ∧ vcs_types = ["none", "p4", "git", "gerrit", "github"]) :=
  ⟨Or.inl rfl, C4_unset_type_message none (Settings.mk none) (Or.inl rfl)⟩

/-- C5: in the poll-role factory table, "gerrit" resolves to the same driver
variant as "git" (both `GitPollVcs`), so the polling behavior —
`detect_changes()` ordering and identifier format — coincides between the
two configurations. -/
theorem C5_poll_gerrit_same_as_git :
    (driver_factory_table (some "poll")).lookup "gerrit" = some DriverVariant.GitPollVcs
      ∧ (driver_factory_table (some "poll")).lookup "git" = some DriverVariant.GitPollVcs
      ∧ (driver_factory_table (some "poll")).lookup "gerrit"
          = (driver_factory_table (some "poll")).lookup "git" := by
  decide

/-- C6: `is_latest_review_version` returns true unconditionally whenever
report_to_review is not set, regardless of the `code_review` attribute
state; when it is set, it returns exactly the `is_latest_version()` result
of the handle. -/
theorem C6_latest_review_version (cr : CodeReviewHandle) (o : Option CodeReviewHandle) :
    is_latest_review_version false o = Except.ok true
      ∧ is_latest_review_version true (mainVcsCodeReview true cr)
          = Except.ok cr.isLatestVersion := by
  exact ⟨by simp [is_latest_review_version],
    by simp [is_latest_review_version, mainVcsCodeReview]⟩

/-- C7 counterexample: with driver status text "status line" (no trailing
newline) and listing "total 0", the successful run writes
"status line\nFile list:\n\ntotal 0\n": no blank line stands between the
status text and "File list:" (the two-newline-then-File-list pattern
occurs nowhere in the file), so the content differs from the claimed
layout status/blank/File list:/blank/listing. -/
theorem C7_counterexample :
    (prepareRepository (DriverBehavior.mk (Except.ok ()) "status line" "total 0"
        (Except.ok "[]"))).statusFile.contents = "status line\nFile list:\n\ntotal 0\n"
      ∧ (prepareRepository (DriverBehavior.mk (Except.ok ()) "status line" "total 0"
          (Except.ok "[]"))).statusFile.contents
          ≠ claimedRepositoryState "status line" "total 0"
      ∧ ¬ ("\n\nFile list:".toList
            <:+: (prepareRepository (DriverBehavior.mk (Except.ok ()) "status line" "total 0"
              (Except.ok "[]"))).statusFile.contents.toList) := by
  refine ⟨by decide, by decide, by decide⟩

/-- C7 (amended): on a successful run, the persisted `REPOSITORY_STATE.txt`
content is exactly the driver status text, a newline, the text
"File list:", a blank line, the recursive long-format listing of the
source root, and a trailing newline; the claimed layout — status text, a
blank line, "File list:", a blank line, listing — holds exactly for those
runs whose driver status text itself ends with a newline. -/
theorem C7_artifact_layout (d : DriverBehavior)
    (h : (prepareRepository d).result = Except.ok ()) :
    (prepareRepository d).statusFile.contents
        = d.repoStatus ++ "\nFile list:\n\n" ++ d.fileListing ++ "\n"
      ∧ (prepareRepository d).statusFile.closed = true
      ∧ (∀ s, d.repoStatus = s ++ "\n" →
          (prepareRepository d).statusFile.contents
            = claimedRepositoryState s d.fileListing) := by
  cases hp : d.prepareResult with
  | error e => simp [prepareRepository, hp] at h
  | ok u =>
    cases hq : d.diffResult with
    | error e => simp [prepareRepository, hp, hq] at h
    | ok diff =>
      refine ⟨?_, ?_, ?_⟩
      · simp [prepareRepository, hp, hq, fileWrite, fileClose, createTextFile,
          String.empty_append, String.append_assoc]
      · simp [prepareRepository, hp, hq, fileWrite, fileClose, createTextFile]
      · intro s hs
        have hnl : ("\n" : String) ++ "\nFile list:\n\n" = "\n\nFile list:\n\n" := by decide
        simp [prepareRepository, hp, hq, fileWrite, fileClose, createTextFile,
          claimedRepositoryState, hs, String.empty_append, String.append_assoc, ← hnl]

/-- C7 witness: the amended theorem applied to a successful run whose status
text ends with a newline. -/
theorem C7_artifact_layout_witness :
    ((prepareRepository (DriverBehavior.mk (Except.ok ()) "rev 42\n" "total 0"
        (Except.ok "[]"))).result = Except.ok ())
      ∧ ((prepareRepository (DriverBehavior.mk (Except.ok ()) "rev 42\n" "total 0"
            (Except.ok "[]"))).statusFile.contents
            = "rev 42\n" ++ "\nFile list:\n\n" ++ "total 0" ++ "\n"
          ∧ (prepareRepository (DriverBehavior.mk (Except.ok ()) "rev 42\n" "total 0"
              (Except.ok "[]"))).statusFile.closed = true
          ∧ (∀ s, ("rev 42\n" : String) = s ++ "\n" →
              (prepareRepository (DriverBehavior.mk (Except.ok ()) "rev 42\n" "total 0"
                (Except.ok "[]"))).statusFile.contents
                = claimedRepositoryState s "total 0")) :=
  ⟨by decide, C7_artifact_layout
    (DriverBehavior.mk (Except.ok ()) "rev 42\n" "total 0" (Except.ok "[]")) (by decide)⟩

/-- C8: `clean_sources_silently` never raises: whatever the outcome of the
recursive removal on the current working-directory state — success, or any
`OSError` kind including the directory being absent — the call returns
normally. -/
theorem C8_clean_never_raises (o : Except OSErrorKind Unit) :
    clean_sources_silently o = Except.ok () := by
  cases o with
  | ok u => rfl
  | error e => rfl

/-- C9: for every `class_type` other than exactly "submit" or exactly "poll"
(including Python `None`, the default), `create_vcs` selects the main-role
table, mapping none to `LocalMainVcs`, p4 to `PerforceMainVcs`, git to
`GitMainVcs`, gerrit to `GerritMainVcs` and github to `GithubMainVcs`; the
role string itself is never validated (table selection is total). -/
theorem C9_default_role_is_main (ct : Option String)
    (h1 : ct ≠ some "submit") (h2 : ct ≠ some "poll") :
    driver_factory_table ct = main_table
      ∧ main_table.lookup "none" = some DriverVariant.LocalMainVcs
      ∧ main_table.lookup "p4" = some DriverVariant.PerforceMainVcs
      ∧ main_table.lookup "git" = some DriverVariant.GitMainVcs
      ∧ main_table.lookup "gerrit" = some DriverVariant.GerritMainVcs
      ∧ main_table.lookup "github" = some DriverVariant.GithubMainVcs := by
  refine ⟨by simp [driver_factory_table, h1, h2], by decide, by decide, by decide,
    by decide, by decide⟩

/-- C9 witness: the theorem applied at the misspelled role string "pool". -/
theorem C9_default_role_is_main_witness :
    ((some "pool" : Option String) ≠ some "submit" ∧ (some "pool" : Option String) ≠ some "poll")
      ∧ (driver_factory_table (some "pool") = main_table
          ∧ main_table.lookup "none" = some DriverVariant.LocalMainVcs
          ∧ main_table.lookup "p4" = some DriverVariant.PerforceMainVcs
          ∧ main_table.lookup "git" = some DriverVariant.GitMainVcs
          ∧ main_table.lookup "gerrit" = some DriverVariant.GerritMainVcs
          ∧ main_table.lookup "github" = some DriverVariant.GithubMainVcs) :=
  ⟨⟨by decide, by decide⟩,
    C9_default_role_is_main (some "pool") (by decide) (by decide)⟩

/-- C10: for every input, `replace_invisible_symbols` returns the input with
only space characters replaced by U+00B7 (middle dot); every other
character, in particular tab and newline, is left unchanged, because the
function returns inside the first loop iteration. -/
theorem C10_replace_only_spaces (line : List Char) :
    replace_invisible_symbols line = line.map (fun c => if c = ' ' then '·' else c) := by
  induction line with
  | nil => rfl
  | cons c cs ih =>
    simp only [replace_invisible_symbols, invisible_symbol_pairs, pyReplaceChar,
      List.flatMap_cons, List.map_cons] at ih ⊢
    by_cases hc : c = ' ' <;> simp [hc, ih]

end Universum
